import Mathlib

/-!
# Shallow embedding of the eco-consumption tracker (src/main.py)

The program keeps an in-memory dict `self.data` mapping category names to
lists of records `{ "date": "YYYY-MM-DD", "amount": <number> }`, loads it
from `consumption_data.json`, appends records via `log_consumption`,
prints per-category sums plus threshold advice via `generate_report` /
`provide_recommendations`, and writes the dict back via `save_data`.

Modelling choices:
* A Python dict with insertion order is an association list
  `List (String × α)` with unique keys produced by normal operation;
  `dict.get` is `dictGet` (first match), and mutating `d[k].append(r)`
  is `appendAt` (rewrites the first matching entry).
* Numeric amounts (Python floats) are modelled as exact rationals `ℚ`;
  none of the verified properties depends on float rounding.
* `datetime.datetime.now()` is a parameter: every logging operation takes
  the current `LocalDate`, and `strftime('%Y-%m-%d')` is `formatDate`
  (zero-padded 4-digit year, 2-digit month, 2-digit day, hyphens).
* The file system is a `FileState`: `missing` (FileNotFoundError on open),
  `garbage` (JSONDecodeError), or `json j` (parseable JSON document `j`).
  An I/O failure during `save_data` (IOError) is an explicit
  `Option String` parameter carrying the failure detail.
* `print` side effects are returned as values: structured `LogMsg` for
  `log_consumption` (its success message interpolates a float, whose
  Python rendering is not modelled), plain strings elsewhere.
-/

namespace EcoTracker

/-- One consumption entry: `{'date': ..., 'amount': ...}` as built in
`log_consumption`. -/
structure ConsumptionRecord where
  date : String
  amount : ℚ
deriving DecidableEq

/-- The in-memory `self.data`: a Python dict from category name to list of
records, insertion order preserved. -/
abbrev Dataset := List (String × List ConsumptionRecord)

/-- A calendar date, the input to `strftime('%Y-%m-%d')`. -/
structure LocalDate where
  year : Nat
  month : Nat
  day : Nat
deriving DecidableEq

/-- Zero-pad a numeral to two digits, as `%m` / `%d` do. -/
def pad2 (n : Nat) : String :=
  if n < 10 then "0" ++ toString n else toString n

/-- Zero-pad a numeral to four digits, as Python's `%Y` does. -/
def pad4 (n : Nat) : String :=
  if n < 10 then "000" ++ toString n
  else if n < 100 then "00" ++ toString n
  else if n < 1000 then "0" ++ toString n
  else toString n

/-- `strftime('%Y-%m-%d')`: hyphen-separated padded year, month, day. -/
def formatDate (d : LocalDate) : String :=
  pad4 d.year ++ "-" ++ pad2 d.month ++ "-" ++ pad2 d.day

/-- Python's `str.capitalize()`: first character upper-cased, rest
lower-cased (ASCII suffices for the category names used here). -/
def capitalize (s : String) : String :=
  match s.data with
  | [] => ""
  | c :: cs => String.mk (Char.toUpper c :: cs.map Char.toLower)

/-- `dict.get(k)` on an insertion-ordered dict modelled as an association
list: the first entry with key `k`, if any. -/
def dictGet {β : Type} (k : String) : List (String × β) → Option β
  | [] => none
  | kv :: rest => if kv.1 = k then some kv.2 else dictGet k rest

/-- `self.data[k].append(r)`: append `r` to the (first) entry with key `k`;
a dict produced by normal operation has unique keys, so this is exactly
Python's in-place list append. Keys other than `k` are untouched. -/
def appendAt (k : String) (r : ConsumptionRecord) : Dataset → Dataset
  | [] => []
  | kv :: rest =>
    if kv.1 = k then (kv.1, kv.2 ++ [r]) :: rest
    else kv :: appendAt k r rest

/-- The dict built in `__init__` before `load_data` runs: the three fixed
categories, each with an empty list. -/
def initData : Dataset := [("energy", []), ("water", []), ("waste", [])]

/-- The JSON values relevant to `json.load` / `json.dump` for this
program. -/
inductive Json where
  | num (q : ℚ)
  | str (s : String)
  | arr (xs : List Json)
  | obj (fields : List (String × Json))

/-- State of `consumption_data.json` on disk. `missing` raises
FileNotFoundError on open for reading; `garbage` raises JSONDecodeError;
`json j` parses to the document `j`. -/
inductive FileState where
  | missing
  | garbage
  | json (j : Json)

/-- `json.dump` of one record dict: keys serialised in insertion order
(`date` then `amount`, the order `log_consumption` builds them). -/
def toJsonRecord (r : ConsumptionRecord) : Json :=
  Json.obj [("date", Json.str r.date), ("amount", Json.num r.amount)]

/-- `json.dump` of the whole dataset dict. -/
def toJson (d : Dataset) : Json :=
  Json.obj (d.map fun kv => (kv.1, Json.arr (kv.2.map toJsonRecord)))

/-- Read one record object back from JSON. -/
def fromJsonRecord : Json → Option ConsumptionRecord
  | Json.obj [(k1, Json.str s), (k2, Json.num q)] =>
    if k1 = "date" ∧ k2 = "amount" then some { date := s, amount := q }
    else none
  | _ => none

/-- Read a list of record objects back from a JSON array. -/
def decodeRecordList : List Json → Option (List ConsumptionRecord)
  | [] => some []
  | x :: xs =>
    match fromJsonRecord x, decodeRecordList xs with
    | some r, some rs => some (r :: rs)
    | _, _ => none

/-- Read one category's value back from JSON. -/
def fromJsonRecords : Json → Option (List ConsumptionRecord)
  | Json.arr xs => decodeRecordList xs
  | _ => none

/-- Read the dataset's fields back, preserving key order. -/
def decodeFields : List (String × Json) → Option Dataset
  | [] => some []
  | kv :: rest =>
    match fromJsonRecords kv.2, decodeFields rest with
    | some rs, some d => some ((kv.1, rs) :: d)
    | _, _ => none

/-- Read a dataset back from a JSON document. -/
def fromJson : Json → Option Dataset
  | Json.obj fields => decodeFields fields
  | _ => none

/-- `load_data(self)`: takes the current `self.data` and the file state,
returns the new `self.data` and the printed status line.  On
FileNotFoundError or JSONDecodeError the `except` branch only prints, so
`self.data` is left exactly as it was.  On success Python assigns the
parsed value verbatim (`self.data = json.load(file)`), with no schema
validation; the model restricts to parsed values that are dataset-shaped
(`fromJson` succeeds) — a JSON document of any other shape would put the
program outside the `Dataset` state space (later operations would fail on
it), and no verified property exercises that case, so `getD` keeps the
prior data there. -/
def load_data (d : Dataset) (fs : FileState) : Dataset × String :=
  match fs with
  | FileState.missing =>
    (d, "No existing data found, starting with an empty dataset.")
  | FileState.garbage =>
    (d, "Error decoding JSON file, starting with an empty dataset.")
  | FileState.json j => ((fromJson j).getD d, "Data loaded successfully.")

/-- `save_data(self)`: serialises `self.data` over the previous file
contents, or, when the write raises IOError `e`, catches it and only
prints.  Returned triple: the (untouched) in-memory data, the resulting
file state, and the printed line.  A failure is modelled as striking
before any byte is written (the file keeps its prior state); partial
writes are not modelled, matching the spec's explicit non-guarantee of
atomicity.  The function is total: the exception is consumed here and
nothing is retried. -/
def save_data (d : Dataset) (fs : FileState) (err : Option String) :
    Dataset × FileState × String :=
  match err with
  | none => (d, FileState.json (toJson d), "Data saved successfully.")
  | some e => (d, fs, "An error occurred while saving data: " ++ e)

/-- The printed outcome of `log_consumption`: the confirmation line
(which interpolates the capitalised category and the raw amount) or the
unrecognised-category diagnostic. -/
inductive LogMsg where
  | logged (cat : String) (amount : ℚ)
  | unrecognized (cat : String)
deriving DecidableEq

/-- `log_consumption(self, resource_type, amount)` at current date `now`:
`self.data.get(resource_type)`; if present, append
`{'date': now.strftime(...), 'amount': amount}` and print confirmation;
otherwise print the diagnostic and change nothing.  No validation of
`amount` (any rational, negative included). -/
def log_consumption (d : Dataset) (now : LocalDate) (rt : String)
    (amount : ℚ) : Dataset × LogMsg :=
  match dictGet rt d with
  | some _ =>
    (appendAt rt { date := formatDate now, amount := amount } d,
     LogMsg.logged rt amount)
  | none => (d, LogMsg.unrecognized rt)

/-- Sum of the `amount` fields of one category's records, as computed by
`sum(record['amount'] for record in records)` in `generate_report`. -/
def categoryTotal (records : List ConsumptionRecord) : ℚ :=
  (records.map fun r => r.amount).sum

/-- The per-category totals computed inside `generate_report`, one pair
per dict entry, in the dict's key iteration order. -/
def totals (d : Dataset) : List (String × ℚ) :=
  d.map fun kv => (kv.1, categoryTotal kv.2)

/-- The static three-entry advice table in `provide_recommendations`. -/
def recommendations : List (String × String) :=
  [("energy", "Consider using energy-efficient appliances or LED lighting."),
   ("water", "Consider shorter showers or fixing leaks."),
   ("waste", "Improve recycling efforts or compost organic waste.")]

/-- `provide_recommendations(self, resource_type, total)`: the printed
line.  Pure: reads no state and mutates nothing.  Threshold fixed at
100; above it, the table advice (with the `.get` default when the
category is absent from the table); otherwise the within-limits line. -/
def provide_recommendations (rt : String) (total : ℚ) : String :=
  if 100 < total then
    "Recommendation for " ++ rt ++ ": " ++
      (dictGet rt recommendations).getD "No recommendation available."
  else
    capitalize rt ++ " consumption is within acceptable limits."

/-- `generate_report(self)`: for each dict entry in iteration order, the
category, its total, and the recommendation line printed for it.  Reads
`self.data` only; mutates nothing. -/
def generate_report (d : Dataset) : List (String × ℚ × String) :=
  d.map fun kv =>
    (kv.1, categoryTotal kv.2,
     provide_recommendations kv.1 (categoryTotal kv.2))

/-- One call to `log_consumption`, for reasoning about call sequences. -/
structure Call where
  cat : String
  amount : ℚ
  date : LocalDate

/-- Run a sequence of `log_consumption` calls against a dataset. -/
def runCalls (d : Dataset) : List Call → Dataset
  | [] => d
  | c :: cs => runCalls (log_consumption d c.date c.cat c.amount).1 cs

/-! ## Helper lemmas -/

lemma fromJsonRecord_toJsonRecord (r : ConsumptionRecord) :
    fromJsonRecord (toJsonRecord r) = some r := by
  simp [toJsonRecord, fromJsonRecord]

lemma decodeRecordList_map (rs : List ConsumptionRecord) :
    decodeRecordList (rs.map toJsonRecord) = some rs := by
  induction rs with
  | nil => rfl
  | cons r rs ih =>
    simp [decodeRecordList, fromJsonRecord_toJsonRecord, ih]

lemma decodeFields_toJson (d : Dataset) :
    decodeFields (d.map fun kv => (kv.1, Json.arr (kv.2.map toJsonRecord)))
      = some d := by
  induction d with
  | nil => rfl
  | cons kv rest ih =>
    simp [decodeFields, fromJsonRecords, decodeRecordList_map, ih]

lemma fromJson_toJson (d : Dataset) : fromJson (toJson d) = some d := by
  simp [toJson, fromJson, decodeFields_toJson]

lemma log_consumption_of_none {d : Dataset} {rt : String}
    (h : dictGet rt d = none) (now : LocalDate) (q : ℚ) :
    log_consumption d now rt q = (d, LogMsg.unrecognized rt) := by
  simp [log_consumption, h]

lemma log_consumption_of_some {d : Dataset} {rt : String}
    {l : List ConsumptionRecord} (h : dictGet rt d = some l)
    (now : LocalDate) (q : ℚ) :
    log_consumption d now rt q =
      (appendAt rt { date := formatDate now, amount := q } d,
       LogMsg.logged rt q) := by
  simp [log_consumption, h]

lemma dictGet_appendAt_self (k : String) (r : ConsumptionRecord)
    (d : Dataset) :
    dictGet k (appendAt k r d) = (dictGet k d).map fun l => l ++ [r] := by
  induction d with
  | nil => rfl
  | cons kv rest ih =>
    by_cases h : kv.1 = k
    · simp [appendAt, dictGet, h]
    · simp [appendAt, dictGet, h, ih]

lemma dictGet_appendAt_ne {k k' : String} (h : k ≠ k')
    (r : ConsumptionRecord) (d : Dataset) :
    dictGet k (appendAt k' r d) = dictGet k d := by
  induction d with
  | nil => rfl
  | cons kv rest ih =>
    by_cases h1 : kv.1 = k'
    · have h2 : k' ≠ k := fun he => h he.symm
      simp [appendAt, dictGet, h1, h2]
    · by_cases h2 : kv.1 = k
      · simp [appendAt, dictGet, h1, h2, h]
      · simp [appendAt, dictGet, h1, h2, ih]

lemma appendAt_keys (k : String) (r : ConsumptionRecord) (d : Dataset) :
    (appendAt k r d).map Prod.fst = d.map Prod.fst := by
  induction d with
  | nil => rfl
  | cons kv rest ih =>
    by_cases h : kv.1 = k
    · simp [appendAt, h]
    · simp [appendAt, h, ih]

lemma log_consumption_keys (d : Dataset) (now : LocalDate) (rt : String)
    (q : ℚ) :
    ((log_consumption d now rt q).1).map Prod.fst = d.map Prod.fst := by
  cases h : dictGet rt d with
  | none => rw [log_consumption_of_none h]
  | some l => rw [log_consumption_of_some h]; exact appendAt_keys ..

lemma dictGet_map_val {β γ : Type} (f : β → γ) (k : String)
    (d : List (String × β)) :
    dictGet k (d.map fun kv => (kv.1, f kv.2)) = (dictGet k d).map f := by
  induction d with
  | nil => rfl
  | cons kv rest ih =>
    by_cases h : kv.1 = k
    · simp [dictGet, h]
    · simp [dictGet, h, ih]

lemma dictGet_runCalls (calls : List Call) :
    ∀ (d : Dataset) (cat : String) (l : List ConsumptionRecord),
      dictGet cat d = some l →
      ∃ l', dictGet cat (runCalls d calls) = some l' ∧
        l'.length = l.length + calls.countP fun c => c.cat == cat := by
  induction calls with
  | nil =>
    intro d cat l h
    exact ⟨l, h, by simp⟩
  | cons c cs ih =>
    intro d cat l h
    cases hc : dictGet c.cat d with
    | none =>
      have hne : (c.cat == cat) = false := by
        by_cases hq : c.cat = cat
        · rw [hq, h] at hc; cases hc
        · simp [hq]
      obtain ⟨l', h1, h2⟩ := ih d cat l h
      refine ⟨l', ?_, ?_⟩
      · simpa [runCalls, log_consumption_of_none hc] using h1
      · simp [List.countP_cons, hne, h2]
    | some l0 =>
      by_cases hq : c.cat = cat
      · subst hq
        rw [h] at hc
        obtain rfl : l = l0 := by cases hc; rfl
        have hd' : dictGet c.cat (log_consumption d c.date c.cat c.amount).1
            = some (l ++ [{ date := formatDate c.date, amount := c.amount }]) := by
          rw [log_consumption_of_some h, dictGet_appendAt_self, h]
          rfl
        obtain ⟨l', h1, h2⟩ := ih _ c.cat _ hd'
        refine ⟨l', by simpa [runCalls] using h1, ?_⟩
        rw [h2]
        simp [List.countP_cons]
        omega
      · have hd' : dictGet cat (log_consumption d c.date c.cat c.amount).1
            = some l := by
          rw [log_consumption_of_some hc, dictGet_appendAt_ne (fun he => hq he.symm)]
          exact h
        obtain ⟨l', h1, h2⟩ := ih _ cat _ hd'
        refine ⟨l', by simpa [runCalls] using h1, ?_⟩
        rw [h2]
        simp [List.countP_cons, hq]

/-! ## Concrete data used by witnesses and counterexamples -/

/-- A dataset holding one energy record, as after one successful log. -/
def demoDataset : Dataset :=
  [("energy", [{ date := "2024-01-01", amount := 5 }]),
   ("water", []), ("waste", [])]

/-- A call sequence with two valid energy logs and one unrecognised
category. -/
def demoCalls : List Call :=
  [{ cat := "energy", amount := 40, date := ⟨2024, 1, 1⟩ },
   { cat := "gas", amount := 5, date := ⟨2024, 1, 2⟩ },
   { cat := "energy", amount := 70, date := ⟨2024, 1, 3⟩ }]

/-! ## Claim theorems -/

/-- Claim C1: for every Dataset built purely from a sequence of `record`
calls starting from the empty three-category Dataset, `save` followed by
`load` on a fresh store (in-memory data as `__init__` leaves it)
reproduces an equal Dataset — same keys, same record sequences in the
same order, same dates and amounts. -/
theorem save_load_roundtrip (calls : List Call) (fs : FileState) :
    (load_data initData
        (save_data (runCalls initData calls) fs none).2.1).1
      = runCalls initData calls := by
  simp [save_data, load_data, fromJson_toJson]

/-- Claim C2, counterexample: the claim says all three category keys are
present after every operation, load included; but `load_data` adopts a
valid stored document verbatim, so loading the serialisation of the
empty dict leaves a Dataset with no `energy` key at all. -/
theorem keys_after_load_cex :
    dictGet "energy"
      (load_data initData (FileState.json (Json.obj []))).1 = none := rfl

/-- Claim C2 (amended): the initial Dataset has exactly the three keys in
order; `record` preserves the key set and order of any Dataset and
leaves every key other than the named one unmapped to change, and `save`
leaves the in-memory Dataset untouched, so the three keys stay present
and unknown keys from loaded data are neither modified nor dropped by
those operations (`totals`/`generate_report` read the Dataset without
returning a new one).  `load` of valid stored data, however, replaces
the Dataset verbatim and can drop keys. -/
theorem keys_preserved (d : Dataset) (now : LocalDate) (rt : String)
    (q : ℚ) (fs : FileState) (err : Option String) (k : String)
    (hk : k ≠ rt) :
    initData.map Prod.fst = ["energy", "water", "waste"] ∧
    ((log_consumption d now rt q).1).map Prod.fst = d.map Prod.fst ∧
    dictGet k (log_consumption d now rt q).1 = dictGet k d ∧
    (save_data d fs err).1 = d := by
  refine ⟨rfl, log_consumption_keys .., ?_, ?_⟩
  · cases h : dictGet rt d with
    | none => rw [log_consumption_of_none h]
    | some l =>
      rw [log_consumption_of_some h]
      exact dictGet_appendAt_ne hk ..
  · cases err <;> rfl

/-- Witness for C2's amended theorem at a concrete dataset holding an
unknown key situation: the key `gas` differs from the logged `energy`. -/
theorem keys_preserved_witness :
    ("gas" : String) ≠ "energy" ∧
    (initData.map Prod.fst = ["energy", "water", "waste"] ∧
     ((log_consumption demoDataset ⟨2024, 1, 5⟩ "energy" 40).1).map Prod.fst
        = demoDataset.map Prod.fst ∧
     dictGet "gas" (log_consumption demoDataset ⟨2024, 1, 5⟩ "energy" 40).1
        = dictGet "gas" demoDataset ∧
     (save_data demoDataset FileState.missing none).1 = demoDataset) :=
  ⟨by decide,
   keys_preserved demoDataset ⟨2024, 1, 5⟩ "energy" 40 FileState.missing
     none "gas" (by decide)⟩

/-- Claim C3: for every category key present in the Dataset, its entry in
the totals equals the sum of the `amount` field over that category's
records (zero for the empty sequence), and the totals are listed in the
Dataset's key iteration order.  `totals` is a plain function of the
Dataset, hence pure and deterministic. -/
theorem totals_correct (d : Dataset) (cat : String)
    (rs : List ConsumptionRecord) (h : dictGet cat d = some rs) :
    dictGet cat (totals d) = some ((rs.map fun r => r.amount).sum) ∧
    (rs = [] → dictGet cat (totals d) = some 0) ∧
    (totals d).map Prod.fst = d.map Prod.fst := by
  have h1 : dictGet cat (totals d) = some (categoryTotal rs) := by
    rw [totals, dictGet_map_val, h]
    rfl
  refine ⟨h1, ?_, ?_⟩
  · rintro rfl
    simpa [categoryTotal] using h1
  · simp [totals]

/-- Witness for C3 at a dataset with one energy record of amount 5. -/
theorem totals_correct_witness :
    dictGet "energy" demoDataset
        = some [{ date := "2024-01-01", amount := 5 }] ∧
    (dictGet "energy" (totals demoDataset)
        = some ((([{ date := "2024-01-01", amount := (5 : ℚ) }] :
            List ConsumptionRecord).map fun r => r.amount).sum) ∧
     (([{ date := "2024-01-01", amount := (5 : ℚ) }] :
          List ConsumptionRecord) = [] →
        dictGet "energy" (totals demoDataset) = some 0) ∧
     (totals demoDataset).map Prod.fst = demoDataset.map Prod.fst) :=
  ⟨by decide,
   totals_correct demoDataset "energy"
     [{ date := "2024-01-01", amount := 5 }] (by decide)⟩

/-- Claim C4: for each of the three fixed categories,
`provide_recommendations` yields the within-acceptable-limits line for
every total ≤ 100 and that category's canned advisory line for every
total > 100; for a category absent from the three-entry table and
total > 100 it yields the generic no-recommendation line.  It is a plain
function and mutates nothing. -/
theorem recommend_threshold (total : ℚ) (rt : String)
    (h2 : dictGet rt recommendations = none) :
    (total ≤ 100 →
       provide_recommendations "energy" total
          = "Energy consumption is within acceptable limits." ∧
       provide_recommendations "water" total
          = "Water consumption is within acceptable limits." ∧
       provide_recommendations "waste" total
          = "Waste consumption is within acceptable limits.") ∧
    (100 < total →
       provide_recommendations "energy" total
          = "Recommendation for energy: Consider using energy-efficient appliances or LED lighting." ∧
       provide_recommendations "water" total
          = "Recommendation for water: Consider shorter showers or fixing leaks." ∧
       provide_recommendations "waste" total
          = "Recommendation for waste: Improve recycling efforts or compost organic waste.") ∧
    (100 < total →
       provide_recommendations rt total
          = "Recommendation for " ++ rt ++ ": No recommendation available.") := by
  refine ⟨fun hle => ?_, fun hgt => ?_, fun hgt => ?_⟩
  · have hn : ¬ (100 : ℚ) < total := not_lt.mpr hle
    refine ⟨?_, ?_, ?_⟩ <;> simp [provide_recommendations, hn] <;> decide
  · refine ⟨?_, ?_, ?_⟩ <;> simp [provide_recommendations, hgt] <;> decide
  · have hlit : (": " : String) ++ "No recommendation available."
        = ": No recommendation available." := rfl
    simp [provide_recommendations, hgt, h2, String.append_assoc, hlit]

/-- Witness for C4 at total 150 and the unknown category `gas`. -/
theorem recommend_threshold_witness :
    dictGet "gas" recommendations = none ∧
    provide_recommendations "gas" 150
      = "Recommendation for gas: No recommendation available." :=
  ⟨by decide,
   (recommend_threshold 150 "gas" (by decide)).2.2 (by norm_num)⟩

/-- Claim C5: starting from the empty three-category Dataset, after any
sequence of `record` calls the length of each fixed category's sequence
equals the number of calls naming that category (each such call is valid
there), and a call naming an unrecognised category changes no sequence's
length. -/
theorem append_only (calls : List Call) (cat : String)
    (h : cat = "energy" ∨ cat = "water" ∨ cat = "waste")
    (d : Dataset) (now : LocalDate) (rt : String) (q : ℚ)
    (hrt : dictGet rt d = none) (k : String) :
    (dictGet cat (runCalls initData calls)).map List.length
      = some (calls.countP fun c => c.cat == cat) ∧
    (dictGet k (log_consumption d now rt q).1).map List.length
      = (dictGet k d).map List.length := by
  constructor
  · have h0 : dictGet cat initData = some [] := by
      rcases h with rfl | rfl | rfl <;> rfl
    obtain ⟨l', h1, h2⟩ := dictGet_runCalls calls initData cat [] h0
    rw [h1]
    simpa using h2
  · rw [log_consumption_of_none hrt]

/-- Witness for C5 on a three-call sequence (two energy logs, one
unrecognised `gas` call). -/
theorem append_only_witness :
    dictGet "gas" initData = none ∧
    ((dictGet "energy" (runCalls initData demoCalls)).map List.length
        = some (demoCalls.countP fun c => c.cat == "energy") ∧
     (dictGet "water"
          (log_consumption initData ⟨2024, 1, 5⟩ "gas" 5).1).map List.length
        = (dictGet "water" initData).map List.length) :=
  ⟨by decide,
   append_only demoCalls "energy" (Or.inl rfl) initData ⟨2024, 1, 5⟩
     "gas" 5 (by decide) "water"⟩

/-- Claim C6, counterexample: the claim says `load` against a missing
store yields the empty three-category Dataset regardless of the prior
in-memory state; but the FileNotFoundError branch of `load_data` only
prints and keeps `self.data`, so a prior state holding a record survives
the load unchanged and is not the empty Dataset. -/
theorem load_missing_cex :
    (load_data demoDataset FileState.missing).1 ≠ initData := by
  decide

/-- Claim C6 (amended): `load` against a nonexistent or malformed store
leaves the in-memory Dataset unchanged; in particular, invoked from the
freshly-initialised store (as `__init__` does) it yields the
empty-but-all-three-categories-present Dataset on every invocation. -/
theorem load_fresh_start (d : Dataset) (fs : FileState)
    (h : fs = FileState.missing ∨ fs = FileState.garbage) :
    (load_data d fs).1 = d ∧ (load_data initData fs).1 = initData := by
  rcases h with rfl | rfl <;> exact ⟨rfl, rfl⟩

/-- Witness for C6's amended theorem at a missing store. -/
theorem load_fresh_start_witness :
    (FileState.missing = FileState.missing ∨
       FileState.missing = FileState.garbage) ∧
    ((load_data demoDataset FileState.missing).1 = demoDataset ∧
     (load_data initData FileState.missing).1 = initData) :=
  ⟨Or.inl rfl, load_fresh_start demoDataset FileState.missing (Or.inl rfl)⟩

/-- Claim C7: for every Dataset and every category string that is not a
key of it, `record` appends nothing and leaves the whole Dataset
unchanged; its only effect is the unrecognised-category diagnostic (and
no exception: the embedded function is total). -/
theorem invalid_category_noop (d : Dataset) (now : LocalDate)
    (rt : String) (q : ℚ) (h : dictGet rt d = none) :
    log_consumption d now rt q = (d, LogMsg.unrecognized rt) :=
  log_consumption_of_none h now q

/-- Witness for C7 at the unrecognised category `gas`. -/
theorem invalid_category_noop_witness :
    dictGet "gas" initData = none ∧
    log_consumption initData ⟨2024, 1, 5⟩ "gas" 5
      = (initData, LogMsg.unrecognized "gas") :=
  ⟨by decide, invalid_category_noop initData ⟨2024, 1, 5⟩ "gas" 5 (by decide)⟩

/-- Claim C8: for every category key present in the Dataset and every
rational amount (negative included — no range or sign validation),
`record` appends exactly one record to the end of that category's
sequence, with `amount` the given value and `date` the current date
rendered by `formatDate` (4-digit year, 2-digit month, 2-digit day,
hyphen-separated), and reports the confirmation. -/
theorem record_appends (d : Dataset) (now : LocalDate) (rt : String)
    (q : ℚ) (l : List ConsumptionRecord) (h : dictGet rt d = some l) :
    dictGet rt (log_consumption d now rt q).1
      = some (l ++ [{ date := formatDate now, amount := q }]) ∧
    (log_consumption d now rt q).2 = LogMsg.logged rt q := by
  rw [log_consumption_of_some h]
  refine ⟨?_, rfl⟩
  show dictGet rt (appendAt rt _ d) = _
  rw [dictGet_appendAt_self, h]
  rfl

/-- Witness for C8 logging a negative amount to `energy`. -/
theorem record_appends_witness :
    dictGet "energy" initData = some [] ∧
    (dictGet "energy"
        (log_consumption initData ⟨2024, 1, 5⟩ "energy" (-5)).1
      = some ([] ++ [{ date := formatDate ⟨2024, 1, 5⟩, amount := -5 }]) ∧
     (log_consumption initData ⟨2024, 1, 5⟩ "energy" (-5)).2
      = LogMsg.logged "energy" (-5)) :=
  ⟨by decide,
   record_appends initData ⟨2024, 1, 5⟩ "energy" (-5) [] (by decide)⟩

/-- Claim C9: a failed `save` is caught where it occurs — the embedded
`save_data` is total, performs the single attempt and no retry — leaves
the in-memory Dataset untouched and reports a diagnostic carrying the
failure detail. -/
theorem save_failure_handled (d : Dataset) (fs : FileState) (e : String) :
    (save_data d fs (some e)).1 = d ∧
    (save_data d fs (some e)).2.2
      = "An error occurred while saving data: " ++ e :=
  ⟨rfl, rfl⟩

/-- Claim C10: a successful `record` call modifies only the named
category's entry: every other key of the Dataset keeps exactly the same
record sequence. -/
theorem record_frame (d : Dataset) (now : LocalDate) (rt : String)
    (q : ℚ) (l : List ConsumptionRecord) (h : dictGet rt d = some l)
    (k : String) (hk : k ≠ rt) :
    dictGet k (log_consumption d now rt q).1 = dictGet k d := by
  rw [log_consumption_of_some h]
  exact dictGet_appendAt_ne hk ..

/-- Witness for C10: logging to `energy` leaves `water` untouched. -/
theorem record_frame_witness :
    dictGet "energy" initData = some [] ∧ ("water" : String) ≠ "energy" ∧
    dictGet "water" (log_consumption initData ⟨2024, 1, 5⟩ "energy" 40).1
      = dictGet "water" initData :=
  ⟨by decide, by decide,
   record_frame initData ⟨2024, 1, 5⟩ "energy" 40 [] (by decide) "water"
     (by decide)⟩

end EcoTracker
